import Mathlib

/-!
Verification of the `sgp4.vallado_cpp` extension wrapper
(`extension/wrapper.cpp`) against its natural-language specification.

The development shallowly embeds the wrapper's own logic:

* the Alpha-5 satellite-number codec (`Satrec_sgp4init`'s rendering of
  `satnum_str` and `get_satnum`'s field-to-integer conversion);
* the vectorized batch kernel `_vectorized_sgp4` and the single-epoch
  entry points `Satrec_sgp4` / `Satrec_sgp4_tsince`, parametrized by an
  abstract external point-propagation routine (`SGP4Funcs::sgp4` lives
  in the vendored Vallado sources, outside the wrapper);
* the epoch post-processing of `Satrec_twoline2rv` (8-digit rounding of
  the fractional Julian day) and the date-field population performed by
  `Satrec_sgp4init`.

Machine doubles are modelled as exact rationals, with an explicit `nan`
marker for the NaN poisoning the kernel performs; C `long`/`int` fields
are modelled as `Nat`/`Int`, with the `uint8` store into the error
output buffer modelled as reduction mod 256.
-/

namespace SGP4Wrap

/-! ### Alpha-5 satellite number codec

`Satrec_sgp4init` (wrapper.cpp lines 191-200) renders a satellite
number into the 5-character `satnum_str` field; `get_satnum`
(wrapper.cpp lines 418-432) converts the stored field back to an
integer.  Character strings are modelled as lists of byte values
(`'0' = 48`, `'9' = 57`, `'A' = 65`, `'I' = 73`, `'O' = 79`). -/

/-- Decimal digit rendering of a number, as `snprintf "%ld"` produces
it for nonnegative input (most significant digit first).  The first
argument is structural fuel; every use supplies `fuel = n`, which is
always sufficient since the number of decimal digits of `n` never
exceeds `n`. -/
def decimalAux : Nat → Nat → List Nat → List Nat
  | 0, _, acc => acc
  | _ + 1, 0, acc => acc
  | fuel + 1, n + 1, acc => decimalAux fuel ((n + 1) / 10) (((n + 1) % 10 + 48) :: acc)

/-- The decimal rendering `snprintf(buf, _, "%ld", n)` of a
nonnegative `long`: digits of `n`, no padding, `"0"` for zero. -/
def decimal (n : Nat) : List Nat :=
  if n = 0 then [48] else decimalAux n n []

/-- The zero-padded rendering `snprintf(buf, _, "%04ld", d)` used for
the last four characters of an alpha-5 field (`d < 10000` in every
call, so the width is exactly 4). -/
def pad4 (d : Nat) : List Nat :=
  List.replicate (4 - (decimal d).length) 48 ++ decimal d

/-- Model of `atol` on the digit strings produced by the wrapper: accumulate
decimal digits, stopping at the first non-digit byte (the wrapper only
ever applies it to pure digit strings written by `snprintf`, so the
leading-whitespace/sign handling of the C library function is never
exercised and is not modelled). -/
def atolAux : List Nat → Nat → Nat
  | [], acc => acc
  | c :: rest, acc =>
    if 48 ≤ c ∧ c ≤ 57 then atolAux rest (acc * 10 + (c - 48)) else acc

/-- C `atol` entry point. -/
def atol (s : List Nat) : Nat := atolAux s 0

/-- The satellite-number rendering of `Satrec_sgp4init`, wrapper.cpp
lines 191-200:

    if (satnum < 100000) {
        snprintf(satnum_str, 6, "%ld", satnum);
    } else {
        char c = 'A' + satnum / 10000 - 10;
        if (c > 'I') c++;
        if (c > 'O') c++;
        satnum_str[0] = c;
        snprintf(satnum_str + 1, 5, "%04ld", satnum % 10000);
    } -/
def encode_satnum (n : Nat) : List Nat :=
  if n < 100000 then decimal n
  else
    let c0 := 65 + n / 10000 - 10
    let c1 := if c0 > 73 then c0 + 1 else c0
    let c2 := if c1 > 79 then c1 + 1 else c1
    c2 :: pad4 (n % 10000)

/-- The field-to-integer conversion of `get_satnum`, wrapper.cpp lines
418-432:

    if (strlen(s) < 5 || s[0] <= '9')
        n = atol(s);
    else if (s[0] <= 'I')
        n = (s[0] - 'A' + 10) * 10000 + atol(s + 1);
    else if (s[0] <= 'O')
        n = (s[0] - 'A' + 9) * 10000 + atol(s + 1);
    else
        n = (s[0] - 'A' + 8) * 10000 + atol(s + 1); -/
def get_satnum (s : List Nat) : Nat :=
  if s.length < 5 ∨ s.headD 0 ≤ 57 then atol s
  else if s.headD 0 ≤ 73 then (s.headD 0 - 65 + 10) * 10000 + atol s.tail
  else if s.headD 0 ≤ 79 then (s.headD 0 - 65 + 9) * 10000 + atol s.tail
  else (s.headD 0 - 65 + 8) * 10000 + atol s.tail

/-- The value `10 ^ (number of decimal digits)`, companion of `decimalAux`, with
the same fuel discipline. -/
def tenTo : Nat → Nat → Nat
  | 0, _ => 1
  | _ + 1, 0 => 1
  | fuel + 1, n + 1 => 10 * tenTo fuel ((n + 1) / 10)

theorem atolAux_decimalAux :
    ∀ (fuel n : Nat), n ≤ fuel → ∀ (a : Nat) (ds : List Nat),
      atolAux (decimalAux fuel n ds) a = atolAux ds (a * tenTo fuel n + n) := by
  intro fuel
  induction fuel with
  | zero =>
    intro n hn a ds
    have hn0 : n = 0 := by omega
    subst hn0
    simp [decimalAux, tenTo]
  | succ fuel ih =>
    intro n hn a ds
    match n with
    | 0 => simp [decimalAux, tenTo]
    | m + 1 =>
      have hdiv : (m + 1) / 10 ≤ fuel := by
        have h1 : (m + 1) / 10 < m + 1 := Nat.div_lt_self (Nat.succ_pos m) (by omega)
        omega
      have hdig : 48 ≤ (m + 1) % 10 + 48 ∧ (m + 1) % 10 + 48 ≤ 57 := by
        have : (m + 1) % 10 < 10 := Nat.mod_lt _ (by omega)
        omega
      rw [decimalAux, ih _ hdiv, atolAux, if_pos hdig]
      congr 1
      have hr : (m + 1) % 10 + 48 - 48 = (m + 1) % 10 := by omega
      have hqr : (m + 1) / 10 * 10 + (m + 1) % 10 = m + 1 := by omega
      rw [hr, tenTo]
      generalize tenTo fuel ((m + 1) / 10) = T
      calc (a * T + (m + 1) / 10) * 10 + (m + 1) % 10
          = a * (10 * T) + ((m + 1) / 10 * 10 + (m + 1) % 10) := by ring
        _ = a * (10 * T) + (m + 1) := by rw [hqr]

theorem atol_decimal (n : Nat) : atol (decimal n) = n := by
  by_cases h : n = 0
  · subst h; rfl
  · unfold decimal
    rw [if_neg h, atol, atolAux_decimalAux n n le_rfl 0 []]
    simp [atolAux]

theorem atolAux_replicate_zeros (k : Nat) (ds : List Nat) :
    atolAux (List.replicate k 48 ++ ds) 0 = atolAux ds 0 := by
  induction k with
  | zero => rfl
  | succ k ih => simpa [List.replicate_succ, atolAux] using ih

theorem atol_pad4 (d : Nat) : atol (pad4 d) = d := by
  rw [pad4, atol, atolAux_replicate_zeros, ← atol, atol_decimal]

theorem decimalAux_length :
    ∀ (fuel n k : Nat), n < 10 ^ k → ∀ ds : List Nat,
      (decimalAux fuel n ds).length ≤ ds.length + k := by
  intro fuel
  induction fuel with
  | zero =>
    intro n k _ ds
    match n with
    | 0 => simp [decimalAux]
    | _ + 1 => simp [decimalAux]
  | succ fuel ih =>
    intro n k hk ds
    match n with
    | 0 => simp [decimalAux]
    | m + 1 =>
      have hkpos : k ≠ 0 := by
        intro h; subst h; simp at hk
      obtain ⟨k', rfl⟩ : ∃ k', k = k' + 1 := ⟨k - 1, by omega⟩
      have hdiv : (m + 1) / 10 < 10 ^ k' := by
        refine (Nat.div_lt_iff_lt_mul (by omega : 0 < 10)).mpr ?_
        rw [pow_succ] at hk; omega
      rw [decimalAux]
      have h2 := ih ((m + 1) / 10) k' hdiv (((m + 1) % 10 + 48) :: ds)
      simp only [List.length_cons] at h2
      omega

theorem decimal_length_le (d : Nat) (h : d < 10000) : (decimal d).length ≤ 4 := by
  by_cases h0 : d = 0
  · subst h0; simp [decimal]
  · unfold decimal
    rw [if_neg h0]
    simpa using decimalAux_length d d 4 (by omega) []

theorem pad4_length (d : Nat) (h : d < 10000) : (pad4 d).length = 4 := by
  have := decimal_length_le d h
  rw [pad4]
  simp only [List.length_append, List.length_replicate]
  omega

theorem decimal_headD_digit (n : Nat) : (decimal n).headD 0 ≤ 57 := by
  have mem : ∀ (fuel m : Nat) (ds : List Nat), (∀ x ∈ ds, x ≤ 57) →
      ∀ x ∈ decimalAux fuel m ds, x ≤ 57 := by
    intro fuel
    induction fuel with
    | zero =>
      intro m ds hds x hx
      match m with
      | 0 => simp only [decimalAux] at hx; exact hds x hx
      | _ + 1 => simp only [decimalAux] at hx; exact hds x hx
    | succ fuel ih =>
      intro m ds hds x hx
      match m with
      | 0 => simp only [decimalAux] at hx; exact hds x hx
      | k + 1 =>
        rw [decimalAux] at hx
        refine ih _ _ ?_ x hx
        intro y hy
        rcases List.mem_cons.mp hy with h | h
        · have : (k + 1) % 10 < 10 := Nat.mod_lt _ (by omega)
          omega
        · exact hds y h
  by_cases h0 : n = 0
  · subst h0; simp [decimal]
  · unfold decimal
    rw [if_neg h0]
    rcases hne : decimalAux n n [] with _ | ⟨x, rest⟩
    · simp
    · have : x ≤ 57 := by
        refine mem n n [] (by simp) x ?_
        rw [hne]; exact List.mem_cons_self x rest
      simpa using this

/-- C4: for every catalog number `n` in `[0, 339999]`, decoding the
5-character field produced by encoding `n` yields `n` back:
`get_satnum (encode_satnum n) = n`, where `encode_satnum` is the
satellite-number rendering of `Satrec_sgp4init` and `get_satnum` is
the `satnum` accessor's field-to-integer conversion. -/
theorem decode_encode_roundtrip (n : Nat) (h : n ≤ 339999) :
    get_satnum (encode_satnum n) = n := by
  by_cases hlow : n < 100000
  · simp only [encode_satnum, if_pos hlow, get_satnum]
    rw [if_pos (Or.inr (decimal_headD_digit n))]
    exact atol_decimal n
  · have hq10 : 10 ≤ n / 10000 := by omega
    have hq33 : n / 10000 ≤ 33 := by omega
    have hd : n % 10000 < 10000 := Nat.mod_lt _ (by omega)
    have hql : (pad4 (n % 10000)).length = 4 := pad4_length _ hd
    have hpa : atol (pad4 (n % 10000)) = n % 10000 := atol_pad4 _
    by_cases hA : n / 10000 ≤ 18
    · have henc : encode_satnum n = (65 + n / 10000 - 10) :: pad4 (n % 10000) := by
        simp only [encode_satnum, if_neg hlow]
        rw [if_neg (by omega : ¬(65 + n / 10000 - 10 > 73))]
        rw [if_neg (by omega : ¬(65 + n / 10000 - 10 > 79))]
      rw [henc]
      simp only [get_satnum, List.headD_cons, List.length_cons, hql, List.tail_cons]
      rw [if_neg (by omega), if_pos (by omega : 65 + n / 10000 - 10 ≤ 73), hpa]
      omega
    · by_cases hK : n / 10000 ≤ 23
      · have henc : encode_satnum n = (65 + n / 10000 - 10 + 1) :: pad4 (n % 10000) := by
          simp only [encode_satnum, if_neg hlow]
          rw [if_pos (by omega : 65 + n / 10000 - 10 > 73)]
          rw [if_neg (by omega : ¬(65 + n / 10000 - 10 + 1 > 79))]
        rw [henc]
        simp only [get_satnum, List.headD_cons, List.length_cons, hql, List.tail_cons]
        rw [if_neg (by omega), if_neg (by omega : ¬(65 + n / 10000 - 10 + 1 ≤ 73)),
          if_pos (by omega : 65 + n / 10000 - 10 + 1 ≤ 79), hpa]
        omega
      · have henc : encode_satnum n = (65 + n / 10000 - 10 + 1 + 1) :: pad4 (n % 10000) := by
          simp only [encode_satnum, if_neg hlow]
          rw [if_pos (by omega : 65 + n / 10000 - 10 > 73)]
          rw [if_pos (by omega : 65 + n / 10000 - 10 + 1 > 79)]
        rw [henc]
        simp only [get_satnum, List.headD_cons, List.length_cons, hql, List.tail_cons]
        rw [if_neg (by omega), if_neg (by omega : ¬(65 + n / 10000 - 10 + 1 + 1 ≤ 73)),
          if_neg (by omega : ¬(65 + n / 10000 - 10 + 1 + 1 ≤ 79)), hpa]
        omega

/-- C4 witness: the roundtrip at the concrete catalog numbers 25544
(a plain numeric field) and 339999 (the alpha-5 ceiling). -/
theorem decode_encode_roundtrip_witness :
    25544 ≤ 339999 ∧ get_satnum (encode_satnum 25544) = 25544 ∧
    339999 ≤ 339999 ∧ get_satnum (encode_satnum 339999) = 339999 :=
  ⟨by decide, decode_encode_roundtrip 25544 (by decide), by decide,
    decode_encode_roundtrip 339999 (by decide)⟩

/-- C5: the claim that the encoder never emits a first character 'I'
or 'O' fails on the code.  Because `Satrec_sgp4init` skips with the
strict comparisons `if (c > 'I') c++; if (c > 'O') c++;` (wrapper.cpp
lines 196-197) instead of `>=`, the letter computed for catalog range
180000-189999 is exactly 'I' (byte 73) and for 230000-239999 exactly
'O' (byte 79) — contradicting both the specification ("skip ... if it
would land on or past them") and the alpha-5 convention referenced by
the comment at wrapper.cpp line 191, which excludes I and O. -/
theorem encode_satnum_emits_I_and_O :
    (encode_satnum 180000).headD 0 = 73 ∧ (encode_satnum 230000).headD 0 = 79 ∧
    encode_satnum 180000 = [73, 48, 48, 48, 48] := by decide

/-! ### The satellite record and the propagation entry points

The `elsetrec` fields the wrapper itself reads or writes, plus
representative orbital-element fields for the frame claims.  Machine
doubles are exact rationals here; a position/velocity component is an
`FP`, which is either a rational value or the NaN the kernel writes
when poisoning a sample. -/

/-- A machine double as stored into the output buffers: either an
ordinary value or NaN. -/
inductive FP where
  | nan : FP
  | val : ℚ → FP
deriving DecidableEq

/-- The fields of the Vallado `elsetrec` struct that the wrapper code
itself touches: the epoch split (`jdsatepoch`/`jdsatepochF`), the
TLE-era date fields (`epochyr`/`epochdays`), the per-call outputs the
external routine records (`error`, `t`), the derived `method`
character, the 5-character `satnum` field, and representative
orbital-element members (`ecco`, `inclo`, `no_kozai`, `bstar`). -/
structure Elsetrec where
  jdsatepoch : ℚ
  jdsatepochF : ℚ
  epochyr : Int
  epochdays : ℚ
  error : Nat
  t : ℚ
  method : Nat
  satnum : List Nat
  ecco : ℚ
  inclo : ℚ
  no_kozai : ℚ
  bstar : ℚ
deriving DecidableEq

/-- The external point-propagation routine `SGP4Funcs::sgp4(satrec, t,
r, v)` as the wrapper calls it: the record is passed by mutable
reference (the routine's updates — in particular the `error` code the
wrapper reads back at wrapper.cpp lines 80 and 249, and the elapsed
time stored in `t` — persist in the caller's record), and one position
and one velocity vector are produced. -/
def Propagator : Type :=
  Elsetrec → ℚ → Elsetrec × (FP × FP × FP) × (FP × FP × FP)

/-- The three NaN doubles `r[k3] = r[k3+1] = r[k3+2] = NAN` written
when a sample is poisoned. -/
def nan3 : List FP := [FP.nan, FP.nan, FP.nan]

/-- Flatten one output vector into three consecutive buffer cells. -/
def vec3ToList (p : FP × FP × FP) : List FP := [p.1, p.2.1, p.2.2]

/-- One iteration of the inner loop of `_vectorized_sgp4`
(wrapper.cpp lines 74-84): compute the elapsed minutes, call the
external routine, store the `uint8` cast of the returned error code,
and poison the six output components with NaN when the error code is
nonzero and below 6.  Returns the record as left by the external
routine together with the three cells written into each buffer. -/
def rowStep (P : Propagator) (rec : Elsetrec) (jd fr : ℚ) :
    Elsetrec × List FP × List FP × Nat :=
  let t := (jd - rec.jdsatepoch) * 1440 + (fr - rec.jdsatepochF) * 1440
  let res := P rec t
  let rec1 := res.1
  let e := rec1.error % 256
  if rec1.error ≠ 0 ∧ rec1.error < 6 then
    (rec1, nan3, nan3, e)
  else
    (rec1, vec3ToList res.2.1, vec3ToList res.2.2, e)

/-- The inner `for (j...)` loop of `_vectorized_sgp4` for one record:
the same `elsetrec` reference is threaded through every epoch, and the
per-sample buffer cells are laid out consecutively. -/
def runRow (P : Propagator) :
    Elsetrec → List (ℚ × ℚ) → Elsetrec × List FP × List FP × List Nat
  | rec, [] => (rec, [], [], [])
  | rec, (jd, fr) :: rest =>
    let s := rowStep P rec jd fr
    let r := runRow P s.1 rest
    (r.1, s.2.1 ++ r.2.1, s.2.2.1 ++ r.2.2.1, s.2.2.2 :: r.2.2.2)

/-- The result of `_vectorized_sgp4`: either a raised error (first
component `some message`) with every buffer and every record exactly
as passed in, or `none` with the records and buffers as left by the
propagation loops. -/
structure VecResult where
  err : Option String
  recs : List Elsetrec
  rbuf : List FP
  vbuf : List FP
  ebuf : List Nat
deriving DecidableEq

/-- The kernel `_vectorized_sgp4` (wrapper.cpp lines 28-97), at buffer-element
granularity: `jd`/`fr` are the input epoch arrays, `rbuf`/`vbuf`/`ebuf`
the caller-owned output buffers (their byte lengths are
`8 * length`, `8 * length` and `1 * length`, so the C byte-length
comparisons at lines 48 and 58-60 are the element-count comparisons
used here), and `recs` is the raw satrec array of length `imax`.
Shape errors are raised before any propagation; otherwise every output
cell is written and the records hold whatever the external routine
left in them. -/
def vectorized_sgp4 (P : Propagator) (recs : List Elsetrec) (jd fr : List ℚ)
    (rbuf vbuf : List FP) (ebuf : List Nat) : VecResult :=
  if jd.length ≠ fr.length then
    ⟨some "jd and fr must have the same shape", recs, rbuf, vbuf, ebuf⟩
  else
    let imax := recs.length
    let jmax := jd.length
    if rbuf.length ≠ imax * jmax * 3 ∨ vbuf.length ≠ imax * jmax * 3 ∨
        ebuf.length ≠ imax * jmax then
      ⟨some "bad output array dimension", recs, rbuf, vbuf, ebuf⟩
    else
      let rows := recs.map (fun rec => runRow P rec (jd.zip fr))
      ⟨none, rows.map (fun x => x.1), (rows.map fun x => x.2.1).flatten,
        (rows.map fun x => x.2.2.1).flatten, (rows.map fun x => x.2.2.2).flatten⟩

/-- Entry point `SatrecArray_sgp4` (wrapper.cpp lines 503-510): the multi-record
batch entry point hands its embedded satrec array and its length to
`_vectorized_sgp4`. -/
def SatrecArray_sgp4 (P : Propagator) (recs : List Elsetrec) (jd fr : List ℚ)
    (rbuf vbuf : List FP) (ebuf : List Nat) : VecResult :=
  vectorized_sgp4 P recs jd fr rbuf vbuf ebuf

/-- Entry point `Satrec__sgp4` (wrapper.cpp lines 255-262): the single-record
array entry point passes its one record as an array of length 1. -/
def Satrec__sgp4 (P : Propagator) (rec : Elsetrec) (jd fr : List ℚ)
    (rbuf vbuf : List FP) (ebuf : List Nat) : VecResult :=
  vectorized_sgp4 P [rec] jd fr rbuf vbuf ebuf

/-- Entry point `Satrec_sgp4` (wrapper.cpp lines 239-253), the single-record
single-epoch entry point: compute the elapsed minutes from the Julian
day pair, call the external routine, poison on error codes 1-5, and
return `(record, error, position, velocity)` (the record is the
caller's object, mutated in place by the external routine; the error
code is returned as a full `int`, not cast to `uint8`). -/
def Satrec_sgp4_fn (P : Propagator) (rec : Elsetrec) (jd fr : ℚ) :
    Elsetrec × Nat × List FP × List FP :=
  let tsince := (jd - rec.jdsatepoch) * 1440 + (fr - rec.jdsatepochF) * 1440
  let res := P rec tsince
  let rec1 := res.1
  if rec1.error ≠ 0 ∧ rec1.error < 6 then
    (rec1, rec1.error, nan3, nan3)
  else
    (rec1, rec1.error, vec3ToList res.2.1, vec3ToList res.2.2)

/-- Entry point `Satrec_sgp4_tsince` (wrapper.cpp lines 224-237): identical to
`Satrec_sgp4` except that the elapsed minutes are given directly. -/
def Satrec_sgp4_tsince_fn (P : Propagator) (rec : Elsetrec) (tsince : ℚ) :
    Elsetrec × Nat × List FP × List FP :=
  let res := P rec tsince
  let rec1 := res.1
  if rec1.error ≠ 0 ∧ rec1.error < 6 then
    (rec1, rec1.error, nan3, nan3)
  else
    (rec1, rec1.error, vec3ToList res.2.1, vec3ToList res.2.2)

/-- Modelled from the spec: a concrete instance of the external
point-propagation routine `SGP4Funcs::sgp4` (vendored Vallado code,
not part of the wrapper source), used to instantiate witnesses and
counterexamples.  Faithful to the contract the spec states and the
wrapper relies on: the routine records the elapsed time in the
record's `t` member ("Last tsince input to sgp4()", wrapper.cpp line
379) and reports its per-sample error code by writing the record's
`error` member, which the wrapper reads back (wrapper.cpp lines 80 and
249); error codes from the 1-6 taxonomy occur for some inputs (here:
code 3 once the elapsed time reaches 20000 minutes). -/
def sgp4_model : Propagator := fun r t =>
  ({ r with t := t, error := if 20000 ≤ t then 3 else 0 },
    (FP.val (7000 - t), FP.val 0, FP.val 0),
    (FP.val 0, FP.val (7 + t), FP.val 0))

/-- A freshly initialized record used as concrete input: a near-earth
(`method = 'n' = 110`) record with no propagation error recorded. -/
def rec_nominal : Elsetrec :=
  { jdsatepoch := 2451545, jdsatepochF := 0, epochyr := 0, epochdays := 0,
    error := 0, t := 0, method := 110, satnum := [50, 53, 53, 52, 52],
    ecco := 1/10000, inclo := 1, no_kozai := 1/100, bstar := 0 }

/-! ### C1: the exposed `error` accessor -/

/-- The `"error"` entry of the `Satrec_members` table, wrapper.cpp
lines 331-332:

    {"error", T_INT, O(method), READONLY,
     PyDoc_STR("Error code (1-6) documented in sgp4()")},

The offset passed is `O(method)`, so the accessor reads the storage of
the record's `method` field, not of its `error` field. -/
def error_member (r : Elsetrec) : Nat := r.method

/-- C1: the claim that reading the exposed `error` accessor returns
the record's `error_code` field fails on the code: the member table
wires `"error"` to offset `O(method)` (wrapper.cpp line 331), so on a
freshly initialized near-earth record (`method = 'n' = 110`,
`error = 0`) the accessor yields the `method` byte 110 instead of the
recorded error code 0 — contradicting the accessor's own doc string
"Error code (1-6) documented in sgp4()". -/
theorem error_member_reads_method :
    error_member rec_nominal = 110 ∧ rec_nominal.error = 0 ∧
    error_member rec_nominal ≠ rec_nominal.error := by
  exact ⟨rfl, rfl, by decide⟩

/-! ### C2: NaN poisoning of failed samples -/

/-- How the `if (satrec.error && satrec.error < 6)` guard dispatches:
error codes 1-5 select the poisoned (`x`) outcome, codes 0 and 6 the
untouched (`y`) outcome. -/
theorem if_error_branch {α : Type} (e : Nat) (x y : α) :
    (1 ≤ e ∧ e ≤ 5 → (if e ≠ 0 ∧ e < 6 then x else y) = x) ∧
    ((e = 0 ∨ e = 6) → (if e ≠ 0 ∧ e < 6 then x else y) = y) := by
  by_cases hc : e ≠ 0 ∧ e < 6
  · rw [if_pos hc]
    obtain ⟨hc1, hc2⟩ := hc
    exact ⟨fun _ => rfl, fun he => by rcases he with h | h <;> omega⟩
  · rw [if_neg hc]
    exact ⟨fun h15 => absurd ⟨by omega, by omega⟩ hc, fun _ => rfl⟩

/-- C2: for every sample of the batch kernel and of the single-epoch
entry points, an external error code in `[1, 5]` makes all six
position/velocity components written for that sample NaN, while error
code 0 or 6 leaves the computed components stored unchanged (exactly
what the external routine produced). -/
theorem nan_poisoning (P : Propagator) (rec : Elsetrec) (jd fr ts : ℚ) :
    ((1 ≤ (rowStep P rec jd fr).1.error ∧ (rowStep P rec jd fr).1.error ≤ 5 →
        (rowStep P rec jd fr).2.1 = nan3 ∧ (rowStep P rec jd fr).2.2.1 = nan3) ∧
      ((rowStep P rec jd fr).1.error = 0 ∨ (rowStep P rec jd fr).1.error = 6 →
        (rowStep P rec jd fr).2.1 =
          vec3ToList (P rec ((jd - rec.jdsatepoch) * 1440 +
            (fr - rec.jdsatepochF) * 1440)).2.1 ∧
        (rowStep P rec jd fr).2.2.1 =
          vec3ToList (P rec ((jd - rec.jdsatepoch) * 1440 +
            (fr - rec.jdsatepochF) * 1440)).2.2)) ∧
    ((1 ≤ (Satrec_sgp4_fn P rec jd fr).1.error ∧
        (Satrec_sgp4_fn P rec jd fr).1.error ≤ 5 →
        (Satrec_sgp4_fn P rec jd fr).2.2.1 = nan3 ∧
        (Satrec_sgp4_fn P rec jd fr).2.2.2 = nan3) ∧
      ((Satrec_sgp4_fn P rec jd fr).1.error = 0 ∨
        (Satrec_sgp4_fn P rec jd fr).1.error = 6 →
        (Satrec_sgp4_fn P rec jd fr).2.2.1 =
          vec3ToList (P rec ((jd - rec.jdsatepoch) * 1440 +
            (fr - rec.jdsatepochF) * 1440)).2.1 ∧
        (Satrec_sgp4_fn P rec jd fr).2.2.2 =
          vec3ToList (P rec ((jd - rec.jdsatepoch) * 1440 +
            (fr - rec.jdsatepochF) * 1440)).2.2)) ∧
    ((1 ≤ (Satrec_sgp4_tsince_fn P rec ts).1.error ∧
        (Satrec_sgp4_tsince_fn P rec ts).1.error ≤ 5 →
        (Satrec_sgp4_tsince_fn P rec ts).2.2.1 = nan3 ∧
        (Satrec_sgp4_tsince_fn P rec ts).2.2.2 = nan3) ∧
      ((Satrec_sgp4_tsince_fn P rec ts).1.error = 0 ∨
        (Satrec_sgp4_tsince_fn P rec ts).1.error = 6 →
        (Satrec_sgp4_tsince_fn P rec ts).2.2.1 = vec3ToList (P rec ts).2.1 ∧
        (Satrec_sgp4_tsince_fn P rec ts).2.2.2 = vec3ToList (P rec ts).2.2)) := by
  refine ⟨?_, ?_, ?_⟩
  · dsimp only [rowStep]
    by_cases hc : (P rec ((jd - rec.jdsatepoch) * 1440 +
        (fr - rec.jdsatepochF) * 1440)).1.error ≠ 0 ∧
        (P rec ((jd - rec.jdsatepoch) * 1440 +
          (fr - rec.jdsatepochF) * 1440)).1.error < 6
    · rw [if_pos hc]
      dsimp only
      obtain ⟨hc1, hc2⟩ := hc
      exact ⟨fun _ => ⟨rfl, rfl⟩, fun he => by rcases he with h | h <;> omega⟩
    · rw [if_neg hc]
      dsimp only
      exact ⟨fun h15 => absurd ⟨by omega, by omega⟩ hc, fun _ => ⟨rfl, rfl⟩⟩
  · dsimp only [Satrec_sgp4_fn]
    by_cases hc : (P rec ((jd - rec.jdsatepoch) * 1440 +
        (fr - rec.jdsatepochF) * 1440)).1.error ≠ 0 ∧
        (P rec ((jd - rec.jdsatepoch) * 1440 +
          (fr - rec.jdsatepochF) * 1440)).1.error < 6
    · rw [if_pos hc]
      dsimp only
      obtain ⟨hc1, hc2⟩ := hc
      exact ⟨fun _ => ⟨rfl, rfl⟩, fun he => by rcases he with h | h <;> omega⟩
    · rw [if_neg hc]
      dsimp only
      exact ⟨fun h15 => absurd ⟨by omega, by omega⟩ hc, fun _ => ⟨rfl, rfl⟩⟩
  · dsimp only [Satrec_sgp4_tsince_fn]
    by_cases hc : (P rec ts).1.error ≠ 0 ∧ (P rec ts).1.error < 6
    · rw [if_pos hc]
      dsimp only
      obtain ⟨hc1, hc2⟩ := hc
      exact ⟨fun _ => ⟨rfl, rfl⟩, fun he => by rcases he with h | h <;> omega⟩
    · rw [if_neg hc]
      dsimp only
      exact ⟨fun h15 => absurd ⟨by omega, by omega⟩ hc, fun _ => ⟨rfl, rfl⟩⟩

/-- C2 witness: a concrete failing sample (elapsed time 21600 minutes,
so the modelled routine reports error 3) is poisoned to NaN, and a
concrete clean sample (error 0) keeps the routine's output. -/
theorem nan_poisoning_witness :
    (rowStep sgp4_model rec_nominal 2451560 0).2.1 = nan3 ∧
    (Satrec_sgp4_fn sgp4_model rec_nominal 2451546 0).2.2.1 =
      vec3ToList (sgp4_model rec_nominal ((2451546 - rec_nominal.jdsatepoch) * 1440 +
        (0 - rec_nominal.jdsatepochF) * 1440)).2.1 := by
  have h1 := nan_poisoning sgp4_model rec_nominal 2451560 0 0
  have h2 := nan_poisoning sgp4_model rec_nominal 2451546 0 0
  refine ⟨(h1.1.1 ?_).1, (h2.2.1.2 ?_).1⟩
  · constructor <;>
      · dsimp only [rowStep, sgp4_model, rec_nominal]
        rw [if_pos (by norm_num : (20000:ℚ) ≤ (2451560 - 2451545) * 1440 + (0 - 0) * 1440)]
        norm_num
  · left
    dsimp only [Satrec_sgp4_fn, sgp4_model, rec_nominal]
    rw [if_neg (by norm_num : ¬(20000:ℚ) ≤ (2451546 - 2451545) * 1440 + (0 - 0) * 1440)]
    norm_num

/-! ### C3: shape checking before any write -/

/-- C3: any shape mismatch — `jd`/`fr` of different lengths, a
position or velocity buffer that does not hold exactly `I*J*3`
doubles, or an error buffer that does not hold exactly `I*J` bytes —
makes `_vectorized_sgp4` fail with a shape error before any
propagation, leaving every output buffer (and every record) exactly as
passed in. -/
theorem shape_mismatch_no_write (P : Propagator) (recs : List Elsetrec)
    (jd fr : List ℚ) (rbuf vbuf : List FP) (ebuf : List Nat)
    (h : jd.length ≠ fr.length ∨ rbuf.length ≠ recs.length * jd.length * 3 ∨
      vbuf.length ≠ recs.length * jd.length * 3 ∨
      ebuf.length ≠ recs.length * jd.length) :
    (vectorized_sgp4 P recs jd fr rbuf vbuf ebuf).err.isSome = true ∧
    (vectorized_sgp4 P recs jd fr rbuf vbuf ebuf).recs = recs ∧
    (vectorized_sgp4 P recs jd fr rbuf vbuf ebuf).rbuf = rbuf ∧
    (vectorized_sgp4 P recs jd fr rbuf vbuf ebuf).vbuf = vbuf ∧
    (vectorized_sgp4 P recs jd fr rbuf vbuf ebuf).ebuf = ebuf := by
  unfold vectorized_sgp4
  by_cases h1 : jd.length ≠ fr.length
  · rw [if_pos h1]
    exact ⟨rfl, rfl, rfl, rfl, rfl⟩
  · rw [if_neg h1]
    dsimp only
    rw [if_pos (h.resolve_left h1)]
    exact ⟨rfl, rfl, rfl, rfl, rfl⟩

/-- C3 witness: a position buffer one element short of `I*J*3 = 3`
(here of length 2) triggers the shape error and leaves all three
output buffers unchanged. -/
theorem shape_mismatch_no_write_witness :
    (vectorized_sgp4 sgp4_model [rec_nominal] [2451546] [0]
        [FP.val 0, FP.val 0] [FP.val 0, FP.val 0, FP.val 0] [7]).err.isSome = true ∧
    (vectorized_sgp4 sgp4_model [rec_nominal] [2451546] [0]
        [FP.val 0, FP.val 0] [FP.val 0, FP.val 0, FP.val 0] [7]).recs = [rec_nominal] ∧
    (vectorized_sgp4 sgp4_model [rec_nominal] [2451546] [0]
        [FP.val 0, FP.val 0] [FP.val 0, FP.val 0, FP.val 0] [7]).rbuf =
      [FP.val 0, FP.val 0] ∧
    (vectorized_sgp4 sgp4_model [rec_nominal] [2451546] [0]
        [FP.val 0, FP.val 0] [FP.val 0, FP.val 0, FP.val 0] [7]).vbuf =
      [FP.val 0, FP.val 0, FP.val 0] ∧
    (vectorized_sgp4 sgp4_model [rec_nominal] [2451546] [0]
        [FP.val 0, FP.val 0] [FP.val 0, FP.val 0, FP.val 0] [7]).ebuf = [7] :=
  shape_mismatch_no_write sgp4_model [rec_nominal] [2451546] [0]
    [FP.val 0, FP.val 0] [FP.val 0, FP.val 0, FP.val 0] [7]
    (Or.inr (Or.inl (by decide)))

/-! ### C6: batch over one record and one epoch vs `Satrec_sgp4` -/

/-- One batch sample and the single-epoch entry point agree
componentwise: same updated record, same three position cells, same
three velocity cells, and the batch's error byte is the `uint8` cast
of the single entry point's error code. -/
theorem rowStep_vs_single (P : Propagator) (rec : Elsetrec) (jd fr : ℚ) :
    (rowStep P rec jd fr).1 = (Satrec_sgp4_fn P rec jd fr).1 ∧
    (rowStep P rec jd fr).2.1 = (Satrec_sgp4_fn P rec jd fr).2.2.1 ∧
    (rowStep P rec jd fr).2.2.1 = (Satrec_sgp4_fn P rec jd fr).2.2.2 ∧
    (rowStep P rec jd fr).2.2.2 = (Satrec_sgp4_fn P rec jd fr).2.1 % 256 := by
  dsimp only [rowStep, Satrec_sgp4_fn]
  split
  · exact ⟨by trivial, by trivial, by trivial, by trivial⟩
  · exact ⟨by trivial, by trivial, by trivial, by trivial⟩

/-- The error code returned by `Satrec_sgp4` is exactly the error
field the external routine left in the record. -/
theorem Satrec_sgp4_fn_err (P : Propagator) (rec : Elsetrec) (jd fr : ℚ) :
    (Satrec_sgp4_fn P rec jd fr).2.1 =
      (P rec ((jd - rec.jdsatepoch) * 1440 + (fr - rec.jdsatepochF) * 1440)).1.error := by
  dsimp only [Satrec_sgp4_fn]
  split
  · rfl
  · rfl

/-- C6: `_vectorized_sgp4` run through the single-record entry point
`Satrec__sgp4` with one record and one epoch (I = 1, J = 1) produces
the same error code and the same six position/velocity values —
including identical NaN poisoning — as `Satrec_sgp4` on the same
record and epoch, and leaves the record in the same state. -/
theorem batch_single_equiv (P : Propagator) (rec : Elsetrec) (jd fr : ℚ)
    (rbuf vbuf : List FP) (ebuf : List Nat)
    (hr : rbuf.length = 3) (hv : vbuf.length = 3) (he : ebuf.length = 1)
    (hE : (P rec ((jd - rec.jdsatepoch) * 1440 +
      (fr - rec.jdsatepochF) * 1440)).1.error < 256) :
    (Satrec__sgp4 P rec [jd] [fr] rbuf vbuf ebuf).err = none ∧
    (Satrec__sgp4 P rec [jd] [fr] rbuf vbuf ebuf).ebuf =
      [(Satrec_sgp4_fn P rec jd fr).2.1] ∧
    (Satrec__sgp4 P rec [jd] [fr] rbuf vbuf ebuf).rbuf =
      (Satrec_sgp4_fn P rec jd fr).2.2.1 ∧
    (Satrec__sgp4 P rec [jd] [fr] rbuf vbuf ebuf).vbuf =
      (Satrec_sgp4_fn P rec jd fr).2.2.2 ∧
    (Satrec__sgp4 P rec [jd] [fr] rbuf vbuf ebuf).recs =
      [(Satrec_sgp4_fn P rec jd fr).1] := by
  obtain ⟨g1, g2, g3, g4⟩ := rowStep_vs_single P rec jd fr
  have hmod : (Satrec_sgp4_fn P rec jd fr).2.1 % 256 = (Satrec_sgp4_fn P rec jd fr).2.1 := by
    rw [Satrec_sgp4_fn_err]
    exact Nat.mod_eq_of_lt hE
  unfold Satrec__sgp4 vectorized_sgp4
  rw [if_neg (by simp)]
  dsimp only
  rw [if_neg (by simp [hr, hv, he])]
  simp only [List.zip_cons_cons, List.zip_nil_right, List.map_cons, List.map_nil,
    List.flatten_cons, List.flatten_nil, List.append_nil]
  rw [runRow]
  dsimp only
  rw [runRow]
  dsimp only
  simp only [List.append_nil]
  exact ⟨by trivial, by rw [g4, hmod], g2, g3, by rw [g1]⟩

/-- C6 witness: the equivalence at a concrete record, epoch and
buffers. -/
theorem batch_single_equiv_witness :
    (Satrec__sgp4 sgp4_model rec_nominal [2451546] [0]
        [FP.val 0, FP.val 0, FP.val 0] [FP.val 0, FP.val 0, FP.val 0] [0]).err = none ∧
    (Satrec__sgp4 sgp4_model rec_nominal [2451546] [0]
        [FP.val 0, FP.val 0, FP.val 0] [FP.val 0, FP.val 0, FP.val 0] [0]).ebuf =
      [(Satrec_sgp4_fn sgp4_model rec_nominal 2451546 0).2.1] ∧
    (Satrec__sgp4 sgp4_model rec_nominal [2451546] [0]
        [FP.val 0, FP.val 0, FP.val 0] [FP.val 0, FP.val 0, FP.val 0] [0]).rbuf =
      (Satrec_sgp4_fn sgp4_model rec_nominal 2451546 0).2.2.1 ∧
    (Satrec__sgp4 sgp4_model rec_nominal [2451546] [0]
        [FP.val 0, FP.val 0, FP.val 0] [FP.val 0, FP.val 0, FP.val 0] [0]).vbuf =
      (Satrec_sgp4_fn sgp4_model rec_nominal 2451546 0).2.2.2 ∧
    (Satrec__sgp4 sgp4_model rec_nominal [2451546] [0]
        [FP.val 0, FP.val 0, FP.val 0] [FP.val 0, FP.val 0, FP.val 0] [0]).recs =
      [(Satrec_sgp4_fn sgp4_model rec_nominal 2451546 0).1] :=
  batch_single_equiv sgp4_model rec_nominal 2451546 0
    [FP.val 0, FP.val 0, FP.val 0] [FP.val 0, FP.val 0, FP.val 0] [0]
    rfl rfl rfl
    (by dsimp only [sgp4_model]; split <;> omega)

/-! ### C7: record mutation by the batch entry point -/

/-- Any record observation the external routine preserves is preserved
across the inner epoch loop. -/
theorem runRow_preserves {α : Type} (f : Elsetrec → α) (P : Propagator)
    (hf : ∀ r t, f ((P r t).1) = f r) :
    ∀ (l : List (ℚ × ℚ)) (rec : Elsetrec), f (runRow P rec l).1 = f rec := by
  intro l
  induction l with
  | nil => intro rec; rfl
  | cons p rest ih =>
    intro rec
    rcases p with ⟨jd0, fr0⟩
    rw [runRow]
    dsimp only
    rw [ih]
    dsimp only [rowStep]
    split
    · exact hf _ _
    · exact hf _ _

/-- C7 counterexample: the claim that the multi-record batch entry
point leaves every field of every stored record unchanged fails on the
code.  `_vectorized_sgp4` hands each array slot by mutable reference
to the external routine (wrapper.cpp lines 73 and 79), so the
routine's record updates persist: after a one-record batch call whose
sample lies 1440 minutes past the epoch, the stored record's `t` field
is 1440, no longer its initial 0. -/
theorem batch_mutates_collection :
    (SatrecArray_sgp4 sgp4_model [rec_nominal] [2451546] [0]
        [FP.val 0, FP.val 0, FP.val 0] [FP.val 0, FP.val 0, FP.val 0] [0]).recs ≠
      [rec_nominal] := by
  intro hcontra
  have ht : ((SatrecArray_sgp4 sgp4_model [rec_nominal] [2451546] [0]
      [FP.val 0, FP.val 0, FP.val 0] [FP.val 0, FP.val 0, FP.val 0] [0]).recs.map
        Elsetrec.t) = [rec_nominal].map Elsetrec.t := by rw [hcontra]
  rw [show (SatrecArray_sgp4 sgp4_model [rec_nominal] [2451546] [0]
      [FP.val 0, FP.val 0, FP.val 0] [FP.val 0, FP.val 0, FP.val 0] [0]).recs.map
        Elsetrec.t = [(2451546 - rec_nominal.jdsatepoch) * 1440 +
          (0 - rec_nominal.jdsatepochF) * 1440] from ?_] at ht
  · simp only [List.map_cons, List.map_nil, List.cons.injEq, and_true] at ht
    rw [show rec_nominal.t = 0 from rfl, show rec_nominal.jdsatepoch = 2451545 from rfl,
      show rec_nominal.jdsatepochF = 0 from rfl] at ht
    norm_num at ht
  · unfold SatrecArray_sgp4 vectorized_sgp4
    rw [if_neg (by simp)]
    dsimp only
    rw [if_neg (by simp)]
    simp only [List.zip_cons_cons, List.zip_nil_right, List.map_cons, List.map_nil]
    rw [runRow]
    dsimp only
    rw [runRow]
    dsimp only [rowStep, sgp4_model]
    split
    · rfl
    · rfl

/-- C7 amended: the batch entry point itself never writes a record
field — the only record mutation is the external routine's own update
of each slot, written back through the mutable reference.  Hence every
record observation the external routine preserves (in particular all
orbital elements and the epoch fields) is unchanged across the batch
call, for every record of the collection. -/
theorem batch_mutation_only_from_routine {α : Type} (f : Elsetrec → α)
    (P : Propagator) (hf : ∀ r t, f ((P r t).1) = f r)
    (recs : List Elsetrec) (jd fr : List ℚ) (rbuf vbuf : List FP) (ebuf : List Nat) :
    (SatrecArray_sgp4 P recs jd fr rbuf vbuf ebuf).recs.map f = recs.map f := by
  unfold SatrecArray_sgp4 vectorized_sgp4
  by_cases h1 : jd.length ≠ fr.length
  · rw [if_pos h1]
  · rw [if_neg h1]
    dsimp only
    by_cases h2 : rbuf.length ≠ recs.length * jd.length * 3 ∨
        vbuf.length ≠ recs.length * jd.length * 3 ∨
        ebuf.length ≠ recs.length * jd.length
    · rw [if_pos h2]
    · rw [if_neg h2]
      dsimp only
      rw [List.map_map, List.map_map]
      exact List.map_congr_left fun rec _ => runRow_preserves f P hf (jd.zip fr) rec

/-- C7 amended witness: the epoch field `jdsatepoch`, which the
modelled routine never writes, survives a concrete batch call over the
one-record collection. -/
theorem batch_mutation_only_from_routine_witness :
    (SatrecArray_sgp4 sgp4_model [rec_nominal] [2451546] [0]
        [FP.val 0, FP.val 0, FP.val 0] [FP.val 0, FP.val 0, FP.val 0] [0]).recs.map
      Elsetrec.jdsatepoch = [rec_nominal].map Elsetrec.jdsatepoch :=
  batch_mutation_only_from_routine Elsetrec.jdsatepoch sgp4_model
    (fun _ _ => rfl) [rec_nominal] [2451546] [0]
    [FP.val 0, FP.val 0, FP.val 0] [FP.val 0, FP.val 0, FP.val 0] [0]

/-! ### C10: elapsed-time formula and error storage -/

theorem getElem?_zip_of_getElem? {α β : Type} :
    ∀ (l1 : List α) (l2 : List β) (j : Nat) (a : α) (b : β),
      l1[j]? = some a → l2[j]? = some b → (l1.zip l2)[j]? = some (a, b) := by
  intro l1
  induction l1 with
  | nil => intro l2 j a b h1 _; simp at h1
  | cons x xs ih =>
    intro l2 j a b h1 h2
    match l2 with
    | [] => simp at h2
    | y :: ys =>
      match j with
      | 0 =>
        simp only [List.getElem?_cons_zero, Option.some.injEq] at h1 h2
        simp [List.zip_cons_cons, h1, h2]
      | j + 1 =>
        simp only [List.getElem?_cons_succ] at h1 h2
        simpa [List.zip_cons_cons] using ih ys j a b h1 h2

theorem runRow_err_length (P : Propagator) :
    ∀ (l : List (ℚ × ℚ)) (rec : Elsetrec),
      (runRow P rec l).2.2.2.length = l.length := by
  intro l
  induction l with
  | nil => intro rec; rfl
  | cons p rest ih =>
    intro rec
    rcases p with ⟨d0, f0⟩
    rw [runRow]
    dsimp only
    simp [ih]

theorem flatten_getElem_rows {α : Type} :
    ∀ (L : List (List α)) (J i j : Nat), j < J → (∀ x ∈ L, x.length = J) →
      L.flatten[i * J + j]? = L[i]?.bind fun row => row[j]? := by
  intro L
  induction L with
  | nil => intro J i j _ _; simp
  | cons x rest ih =>
    intro J i j hj hall
    have hx : x.length = J := hall x (List.mem_cons_self x rest)
    match i with
    | 0 =>
      rw [List.flatten_cons, Nat.zero_mul, Nat.zero_add,
        List.getElem?_append, if_pos (by omega : j < x.length)]
      simp
    | i + 1 =>
      have hidx : (i + 1) * J + j = x.length + (i * J + j) := by
        rw [hx, Nat.succ_mul]; omega
      rw [List.flatten_cons, hidx, List.getElem?_append,
        if_neg (by omega : ¬x.length + (i * J + j) < x.length)]
      have hsub : x.length + (i * J + j) - x.length = i * J + j := by omega
      rw [hsub, ih J i j hj (fun y hy => hall y (List.mem_cons_of_mem x hy))]
      simp

/-- The error byte one batch sample stores: the `uint8` cast of the
error left in the record by the external routine, which is invoked on
the record state current at that sample. -/
theorem rowStep_err (P : Propagator) (rec : Elsetrec) (jd fr : ℚ) :
    (rowStep P rec jd fr).2.2.2 =
      (P rec ((jd - rec.jdsatepoch) * 1440 +
        (fr - rec.jdsatepochF) * 1440)).1.error % 256 := by
  dsimp only [rowStep]
  split
  · rfl
  · rfl

theorem runRow_fst_cons (P : Propagator) (rec : Elsetrec) (d f : ℚ)
    (l : List (ℚ × ℚ)) :
    (runRow P rec ((d, f) :: l)).1 = (runRow P (rowStep P rec d f).1 l).1 := rfl

theorem runRow_err_getElem (P : Propagator) :
    ∀ (l : List (ℚ × ℚ)) (rec : Elsetrec) (j : Nat) (p : ℚ × ℚ), l[j]? = some p →
      (runRow P rec l).2.2.2[j]? =
        some ((P ((runRow P rec (l.take j)).1)
          ((p.1 - ((runRow P rec (l.take j)).1).jdsatepoch) * 1440 +
            (p.2 - ((runRow P rec (l.take j)).1).jdsatepochF) * 1440)).1.error % 256) := by
  intro l
  induction l with
  | nil => intro rec j p hp; simp at hp
  | cons p0 rest ih =>
    intro rec j p hp
    rcases p0 with ⟨d0, f0⟩
    match j with
    | 0 =>
      simp only [List.getElem?_cons_zero, Option.some.injEq] at hp
      subst hp
      rw [runRow]
      dsimp only
      simp only [List.getElem?_cons_zero, List.take_zero, Option.some.injEq]
      rw [rowStep_err]
      rfl
    | j + 1 =>
      simp only [List.getElem?_cons_succ] at hp
      rw [runRow]
      dsimp only
      simp only [List.getElem?_cons_succ]
      rw [ih (rowStep P rec d0 f0).1 j p hp, List.take_succ_cons, runRow_fst_cons]

/-- C10: in a batch call that passes the shape checks, the error code
stored at `out_error[i, j]` is exactly the code the external routine
returns when invoked for that pair with elapsed minutes
`(day[j] - record[i].epoch_whole_day) * 1440 +
 (day_fraction[j] - record[i].epoch_day_fraction) * 1440` — the epoch
fields in the formula being those of the record as stored, since the
external routine preserves them. -/
theorem error_code_storage (P : Propagator)
    (hP : ∀ r t, ((P r t).1).jdsatepoch = r.jdsatepoch ∧
      ((P r t).1).jdsatepochF = r.jdsatepochF)
    (hE : ∀ r t, ((P r t).1).error < 256)
    (recs : List Elsetrec) (jd fr : List ℚ) (rbuf vbuf : List FP) (ebuf : List Nat)
    (hlen : fr.length = jd.length)
    (hr : rbuf.length = recs.length * jd.length * 3)
    (hv : vbuf.length = recs.length * jd.length * 3)
    (he : ebuf.length = recs.length * jd.length)
    (i j : Nat) (rec : Elsetrec) (dj fj : ℚ)
    (hreci : recs[i]? = some rec) (hdj : jd[j]? = some dj) (hfj : fr[j]? = some fj) :
    (vectorized_sgp4 P recs jd fr rbuf vbuf ebuf).ebuf[i * jd.length + j]? =
      some ((P ((runRow P rec ((jd.zip fr).take j)).1)
        ((dj - rec.jdsatepoch) * 1440 + (fj - rec.jdsatepochF) * 1440)).1.error) := by
  have hj : j < jd.length := by
    by_contra hn
    push_neg at hn
    rw [List.getElem?_eq_none hn] at hdj
    exact Option.noConfusion hdj
  have hzlen : (jd.zip fr).length = jd.length := by
    simp [List.length_zip, hlen]
  have hzip : (jd.zip fr)[j]? = some (dj, fj) :=
    getElem?_zip_of_getElem? jd fr j dj fj hdj hfj
  unfold vectorized_sgp4
  rw [if_neg (by omega)]
  dsimp only
  rw [if_neg (by omega)]
  dsimp only
  rw [List.map_map]
  rw [flatten_getElem_rows _ jd.length i j hj ?_]
  · rw [List.getElem?_map, hreci]
    simp only [Option.map_some', Option.some_bind, Function.comp_apply]
    rw [runRow_err_getElem P (jd.zip fr) rec j (dj, fj) hzip]
    have e1 : ((runRow P rec ((jd.zip fr).take j)).1).jdsatepoch = rec.jdsatepoch :=
      runRow_preserves Elsetrec.jdsatepoch P (fun r t => (hP r t).1) _ rec
    have e2 : ((runRow P rec ((jd.zip fr).take j)).1).jdsatepochF = rec.jdsatepochF :=
      runRow_preserves Elsetrec.jdsatepochF P (fun r t => (hP r t).2) _ rec
    rw [e1, e2, Nat.mod_eq_of_lt (hE _ _)]
  · intro x hx
    rw [List.mem_map] at hx
    obtain ⟨r0, _, rfl⟩ := hx
    simp only [Function.comp_apply]
    rw [runRow_err_length P (jd.zip fr) r0, hzlen]

/-- C10 witness: one record, one epoch one day past the epoch (elapsed
time 1440 minutes), with the modelled external routine. -/
theorem error_code_storage_witness :
    (vectorized_sgp4 sgp4_model [rec_nominal] [2451546] [0]
        [FP.val 0, FP.val 0, FP.val 0] [FP.val 0, FP.val 0, FP.val 0]
        [0]).ebuf[0 * [(2451546 : ℚ)].length + 0]? =
      some ((sgp4_model ((runRow sgp4_model rec_nominal
          (([(2451546 : ℚ)].zip [(0 : ℚ)]).take 0)).1)
        ((2451546 - rec_nominal.jdsatepoch) * 1440 +
          (0 - rec_nominal.jdsatepochF) * 1440)).1.error) :=
  error_code_storage sgp4_model (fun _ _ => ⟨rfl, rfl⟩)
    (fun _ t => by dsimp only [sgp4_model]; split <;> omega)
    [rec_nominal] [2451546] [0]
    [FP.val 0, FP.val 0, FP.val 0] [FP.val 0, FP.val 0, FP.val 0] [0]
    rfl rfl rfl rfl 0 0 rec_nominal 2451546 0 rfl rfl rfl

/-! ### C8 and C9: the epoch split and the date fields -/

/-- C `round`: nearest integer, halfway cases away from zero. -/
def c_round (x : ℚ) : Int :=
  if 0 ≤ x then ⌊x + 1/2⌋ else -⌊-x + 1/2⌋

/-- The integral part `modf` stores: truncation toward zero. -/
def c_trunc (x : ℚ) : Int :=
  if 0 ≤ x then ⌊x⌋ else ⌈x⌉

/-- The epoch post-processing of `Satrec_twoline2rv`, wrapper.cpp
lines 155-157: the fractional Julian day parsed by the external
`twoline2rv` is rounded to eight decimal digits,

    self->satrec.jdsatepochF = round(self->satrec.jdsatepochF * 1e8) / 1e8;

and nothing else of the record is touched (in particular there is no
carry into `jdsatepoch`). -/
def twoline2rv_roundF (r : Elsetrec) : Elsetrec :=
  { r with jdsatepochF := (c_round (r.jdsatepochF * 100000000) : ℚ) / 100000000 }

/-- The date-field population of `Satrec_sgp4init`, wrapper.cpp lines
208-216:

    SGP4Funcs::invjday_SGP4(2433281.5, epoch, y, m, d, H, M, S);
    SGP4Funcs::jday_SGP4(y, 1, 0, 0, 0, 0.0, jan0jd, jan0fr);
    satrec.epochyr = y % 1000;
    satrec.epochdays = 2433281.5 - jan0jd + epoch;
    satrec.jdsatepochF = modf(epoch, &satrec.jdsatepoch);
    satrec.jdsatepoch += 2433281.5;

The year `y` and the January-0 Julian day `jan0jd` are produced by the
external calendar routines `invjday_SGP4`/`jday_SGP4` (vendored
Vallado code, outside the wrapper) and are taken here as inputs; `y`
is a positive calendar year, so the C `%` agrees with `Int.emod`. -/
def sgp4init_datefields (y : Int) (jan0jd : ℚ) (epoch : ℚ) (r : Elsetrec) : Elsetrec :=
  { r with
    epochyr := y % 1000,
    epochdays := 2433281.5 - jan0jd + epoch,
    jdsatepoch := (c_trunc epoch : ℚ) + 2433281.5,
    jdsatepochF := epoch - (c_trunc epoch : ℚ) }

/-- A record whose parsed day fraction is within half an eighth-digit
unit of 1 (as the external parser could produce for a TLE epoch
fraction of `.99999999` plus upward arithmetic noise). -/
def rec_prerounding : Elsetrec :=
  { rec_nominal with jdsatepochF := 999999999/1000000000 }

/-- C8 counterexample: the claim that `epoch_day_fraction` always ends
in `[0, 1)`, with rounding overflow carried into `epoch_whole_day`,
fails on the code: wrapper.cpp line 157 performs no carry, so a parsed
fraction of `0.999999999` is rounded up to exactly `1.0` and stored as
`1.0`, while `jdsatepoch` is left unchanged. -/
theorem rounding_reaches_one_no_carry :
    (twoline2rv_roundF rec_prerounding).jdsatepochF = 1 ∧
    ¬(twoline2rv_roundF rec_prerounding).jdsatepochF < 1 ∧
    (twoline2rv_roundF rec_prerounding).jdsatepoch = rec_prerounding.jdsatepoch := by
  have hfloor : (⌊(999999999 : ℚ)/1000000000 * 100000000 + 1/2⌋ : Int) = 100000000 := by
    rw [Int.floor_eq_iff]
    norm_num
  have hF : (twoline2rv_roundF rec_prerounding).jdsatepochF = 1 := by
    show (c_round ((999999999 : ℚ)/1000000000 * 100000000) : ℚ) / 100000000 = 1
    rw [c_round, if_pos (by norm_num), hfloor]
    norm_num
  exact ⟨hF, by rw [hF]; norm_num, rfl⟩

/-- C8 amended: the TLE-ingestion path rounds the day fraction with no
carry, so the invariant `epoch_day_fraction ∈ [0, 1)` holds (with
`epoch_whole_day` untouched) exactly when the parsed fraction lies
below `1 - 1/(2*10^8)`; on the direct-elements path the `modf` split
puts the fraction in `[0, 1)` for every nonnegative epoch. -/
theorem epoch_fraction_invariant (r : Elsetrec) (y : Int) (jan0jd epoch : ℚ)
    (h0 : 0 ≤ r.jdsatepochF) (h1 : r.jdsatepochF < 1 - 1/200000000)
    (hep : 0 ≤ epoch) :
    (0 ≤ (twoline2rv_roundF r).jdsatepochF ∧
      (twoline2rv_roundF r).jdsatepochF < 1 ∧
      (twoline2rv_roundF r).jdsatepoch = r.jdsatepoch) ∧
    (0 ≤ (sgp4init_datefields y jan0jd epoch r).jdsatepochF ∧
      (sgp4init_datefields y jan0jd epoch r).jdsatepochF < 1) := by
  constructor
  · have hx0 : (0:ℚ) ≤ r.jdsatepochF * 100000000 := by positivity
    have hm0 : (0:Int) ≤ ⌊r.jdsatepochF * 100000000 + 1/2⌋ := by
      apply Int.le_floor.mpr
      push_cast
      linarith
    have hm1 : ⌊r.jdsatepochF * 100000000 + 1/2⌋ < 100000000 := by
      apply Int.floor_lt.mpr
      push_cast
      nlinarith
    have hcr : c_round (r.jdsatepochF * 100000000) = ⌊r.jdsatepochF * 100000000 + 1/2⌋ := by
      rw [c_round, if_pos hx0]
    refine ⟨?_, ?_, rfl⟩
    · show (0:ℚ) ≤ (c_round (r.jdsatepochF * 100000000) : ℚ) / 100000000
      rw [hcr]
      apply div_nonneg _ (by norm_num)
      exact_mod_cast hm0
    · show (c_round (r.jdsatepochF * 100000000) : ℚ) / 100000000 < 1
      rw [hcr, div_lt_one (by norm_num)]
      exact_mod_cast hm1
  · constructor
    · show (0:ℚ) ≤ epoch - (c_trunc epoch : ℚ)
      rw [c_trunc, if_pos hep]
      have := Int.floor_le epoch
      linarith
    · show epoch - (c_trunc epoch : ℚ) < 1
      rw [c_trunc, if_pos hep]
      have := Int.lt_floor_add_one epoch
      linarith

/-- A record whose parsed day fraction is an exact representable TLE
fraction, `0.5`. -/
def rec_halfF : Elsetrec := { rec_nominal with jdsatepochF := 1/2 }

/-- C8 witness: the amended invariant at the concrete fraction `0.5`
(TLE path) and the concrete epoch `2.25` (direct-elements path). -/
theorem epoch_fraction_invariant_witness :
    (0 ≤ (twoline2rv_roundF rec_halfF).jdsatepochF ∧
      (twoline2rv_roundF rec_halfF).jdsatepochF < 1 ∧
      (twoline2rv_roundF rec_halfF).jdsatepoch = rec_halfF.jdsatepoch) ∧
    (0 ≤ (sgp4init_datefields 1958 0 (9/4) rec_halfF).jdsatepochF ∧
      (sgp4init_datefields 1958 0 (9/4) rec_halfF).jdsatepochF < 1) :=
  epoch_fraction_invariant rec_halfF 1958 0 (9/4)
    (by show (0:ℚ) ≤ 1/2; norm_num)
    (by show (1/2:ℚ) < 1 - 1/200000000; norm_num)
    (by norm_num)

/-- C9 counterexample: the claim that the direct-elements initializer
leaves `epoch_year` and `epoch_day_of_year` unpopulated fails on the
code.  Wrapper.cpp lines 208-214 deliberately compute and assign both
("Populate date fields that SGP4Funcs::twoline2rv would set"): for the
epoch 25897.5 days past 1949 December 31 (calendar year 2020, whose
January-0 Julian day is 2458848.5) the call overwrites the record's
`epochyr` 0 with 20 and its `epochdays` 0 with 330.5. -/
theorem sgp4init_populates_datefields :
    (sgp4init_datefields 2020 (4917697/2) (51795/2) rec_nominal).epochyr ≠
      rec_nominal.epochyr ∧
    (sgp4init_datefields 2020 (4917697/2) (51795/2) rec_nominal).epochdays ≠
      rec_nominal.epochdays := by
  constructor
  · show (2020 % 1000 : Int) ≠ 0
    decide
  · show (2433281.5 : ℚ) - 4917697/2 + 51795/2 ≠ 0
    norm_num

/-- C9 amended: the direct-elements initializer populates all four
date fields — `epochyr` with `y % 1000` and `epochdays` with
`2433281.5 - jan0jd + epoch` (exactly as the TLE path would), and
`jdsatepoch`/`jdsatepochF` by the `modf` split of the given epoch
(whole and fractional parts summing to `epoch + 2433281.5`) — while
leaving every other record field unchanged. -/
theorem sgp4init_datefields_spec (y : Int) (jan0jd epoch : ℚ) (r : Elsetrec) :
    (sgp4init_datefields y jan0jd epoch r).epochyr = y % 1000 ∧
    (sgp4init_datefields y jan0jd epoch r).epochdays = 2433281.5 - jan0jd + epoch ∧
    (sgp4init_datefields y jan0jd epoch r).jdsatepoch = (c_trunc epoch : ℚ) + 2433281.5 ∧
    (sgp4init_datefields y jan0jd epoch r).jdsatepochF = epoch - (c_trunc epoch : ℚ) ∧
    (sgp4init_datefields y jan0jd epoch r).jdsatepoch +
      (sgp4init_datefields y jan0jd epoch r).jdsatepochF = epoch + 2433281.5 ∧
    (sgp4init_datefields y jan0jd epoch r).error = r.error ∧
    (sgp4init_datefields y jan0jd epoch r).t = r.t ∧
    (sgp4init_datefields y jan0jd epoch r).method = r.method ∧
    (sgp4init_datefields y jan0jd epoch r).satnum = r.satnum ∧
    (sgp4init_datefields y jan0jd epoch r).ecco = r.ecco ∧
    (sgp4init_datefields y jan0jd epoch r).inclo = r.inclo ∧
    (sgp4init_datefields y jan0jd epoch r).no_kozai = r.no_kozai ∧
    (sgp4init_datefields y jan0jd epoch r).bstar = r.bstar :=
  ⟨rfl, rfl, rfl, rfl,
    by
      show ((c_trunc epoch : ℚ) + 2433281.5) + (epoch - (c_trunc epoch : ℚ)) =
        epoch + 2433281.5
      ring,
    rfl, rfl, rfl, rfl, rfl, rfl, rfl, rfl⟩

end SGP4Wrap
